import Mathlib

/-!
Shallow embedding of the interview-ai core (interview session state machine,
adaptive-difficulty controller, in-memory session store) from:
  app/interview/models.py
  app/interview/services/interview_service.py
  app/interview/services/openai_service.py  (calculate_adaptive_difficulty)
  app/interview/storage.py

External provider calls (generate_question, evaluate_answer,
generate_final_report) are modelled as oracle parameters: the service is a
pure state transformer given the provider's responses.  Python's in-place
mutation of the session object is modelled by returning the session state
alongside the result; a path that raises before any field assignment returns
the input state unchanged.  UUIDs are modelled as Nat, wall-clock instants
as Nat time units.
-/

namespace InterviewAI

/-- `Difficulty` enum from app/interview/models.py. -/
inductive Difficulty where
  | easy
  | medium
  | hard
deriving DecidableEq, Repr

/-- `InterviewStatus` enum from app/interview/models.py. -/
inductive InterviewStatus where
  | in_progress
  | completed
deriving DecidableEq, Repr

/-- `InterviewQuestion` model from app/interview/models.py. -/
structure InterviewQuestion where
  question_number : Nat
  question : String
  difficulty : Difficulty
  topic : String
deriving DecidableEq, Repr

/-- `QuestionEvaluation` model from app/interview/models.py
(score is validated 1..10 at the API boundary). -/
structure QuestionEvaluation where
  score : Nat
  correctness : String
  depth : String
  clarity : String
  practical_understanding : String
  strengths : List String
  areas_for_improvement : List String
  feedback : String
deriving DecidableEq, Repr

/-- `QuestionAnswerRecord` model from app/interview/models.py. -/
structure QuestionAnswerRecord where
  question : InterviewQuestion
  answer : Option String
  evaluation : Option QuestionEvaluation
deriving DecidableEq, Repr

/-- `InterviewConfig` from app/interview/models.py, with the field spelling
used by interview_service.py (`experience_years`). -/
structure InterviewConfig where
  experience_years : Nat
  subject : String
  difficulty : Difficulty
  num_questions : Nat
deriving DecidableEq, Repr

/-- `InterviewState` model from app/interview/models.py. -/
structure InterviewState where
  interview_id : Nat
  config : InterviewConfig
  current_question_num : Nat
  conversation_history : List QuestionAnswerRecord
  status : InterviewStatus
deriving DecidableEq, Repr

/-- `StartInterviewRequest` from app/interview/models.py
(pydantic validates `num_questions` with ge=1, le=20). -/
structure StartInterviewRequest where
  experience_years : Nat
  subject : String
  difficulty : Difficulty
  num_questions : Nat
deriving DecidableEq, Repr

/-- `SubmitAnswerRequest` from app/interview/models.py. -/
structure SubmitAnswerRequest where
  interview_id : Nat
  answer : String
  question_number : Nat
deriving DecidableEq, Repr

/-- `StartInterviewResponse` from app/interview/models.py. -/
structure StartInterviewResponse where
  interview_id : Nat
  first_question : InterviewQuestion
  total_questions : Nat
  config : InterviewConfig
deriving DecidableEq, Repr

/-- `SubmitAnswerResponse` from app/interview/models.py.
`questions_remaining` is an `Int` in spirit (Python int); here the service
only ever produces non-negative values on reachable states, so `Nat` with
truncated subtraction coincides with the code on those states. -/
structure SubmitAnswerResponse where
  evaluation : QuestionEvaluation
  next_question : Option InterviewQuestion
  is_complete : Bool
  questions_remaining : Nat
  current_question_num : Nat
deriving DecidableEq, Repr

/-- `QuestionBreakdown` from app/interview/models.py. -/
structure QuestionBreakdown where
  question_number : Nat
  question : String
  topic : String
  difficulty : Difficulty
  answer_summary : String
  score : Nat
  feedback : String
deriving DecidableEq, Repr

/-- `FinalReportResponse` from app/interview/models.py. -/
structure FinalReportResponse where
  interview_id : Nat
  overall_score : ℚ
  total_questions : Nat
  questions_answered : Nat
  experience_years : Nat
  subject : String
  detailed_feedback : String
  strong_areas : List String
  weak_areas : List String
  question_wise_breakdown : List QuestionBreakdown
  recommendations : List String
  hire_recommendation : String
deriving DecidableEq, Repr

/-- The exception classes of interview_service.py, plus `indexError` for an
unhandled Python `IndexError` (e.g. `history[-1]` on an empty list).
`serviceError` is the base `InterviewServiceError` raised directly (as
`get_report` does for an incomplete interview); the other three are its
distinctly-typed subclasses. -/
inductive InterviewError where
  | notFound
  | alreadyCompleted
  | invalidQuestionNumber
  | serviceError
  | indexError
deriving DecidableEq, Repr

/-- Whether an error value is one of the distinctly-typed exception
subclasses (`InterviewNotFoundError`, `InterviewAlreadyCompletedError`,
`InvalidQuestionNumberError`), as opposed to the generic base
`InterviewServiceError` or an unhandled exception. -/
def InterviewError.isDistinctTyped : InterviewError → Bool
  | .notFound => true
  | .alreadyCompleted => true
  | .invalidQuestionNumber => true
  | .serviceError => false
  | .indexError => false

/-! ## Difficulty controller (openai_service.py, calculate_adaptive_difficulty) -/

/-- `difficulty_order = [Difficulty.EASY, Difficulty.MEDIUM, Difficulty.HARD]`. -/
def difficultyOrder : List Difficulty := [.easy, .medium, .hard]

/-- `avg_score = sum(recent_scores) / len(recent_scores)` (Python true division). -/
def avg_score (recent_scores : List Nat) : ℚ :=
  (recent_scores.sum : ℚ) / (recent_scores.length : ℚ)

/-- `OpenAIService.calculate_adaptive_difficulty` from openai_service.py. -/
def calculate_adaptive_difficulty (current_difficulty : Difficulty)
    (recent_scores : List Nat) : Difficulty :=
  if recent_scores.isEmpty then current_difficulty
  else
    let avg := avg_score recent_scores
    let current_index := difficultyOrder.indexOf current_difficulty
    if 8 ≤ avg ∧ current_index < 2 then
      difficultyOrder.getD (current_index + 1) current_difficulty
    else if avg ≤ 4 ∧ 0 < current_index then
      difficultyOrder.getD (current_index - 1) current_difficulty
    else
      current_difficulty

/-- Position of a difficulty in the total order EASY < MEDIUM < HARD. -/
def difficultyIdx : Difficulty → Nat
  | .easy => 0
  | .medium => 1
  | .hard => 2

/-- Number of promotion/demotion steps between two difficulty levels. -/
def difficultySteps (a b : Difficulty) : Nat :=
  (difficultyIdx a - difficultyIdx b) + (difficultyIdx b - difficultyIdx a)

/-! ## Provider oracles

`openai.generate_question(experience_years, subject, difficulty,
question_number, total_questions, previous_records)` and
`openai.evaluate_answer(question, answer, experience_years, subject)` are
external calls; the service is parameterised by their responses. -/

/-- Type of the `generate_question` provider call. -/
def GenFn : Type :=
  Nat → String → Difficulty → Nat → Nat → List QuestionAnswerRecord → InterviewQuestion

/-- Type of the `evaluate_answer` provider call. -/
def EvalFn : Type :=
  InterviewQuestion → String → Nat → String → QuestionEvaluation

/-! ## Interview service (interview_service.py) -/

/-- `InterviewService.start_interview`: builds the config, generates question 1
(with no prior records), seeds the history with one unanswered record, and
returns the new state (stored via `storage.create`) and the response. -/
def start_interview (g : GenFn) (req : StartInterviewRequest) (interview_id : Nat) :
    InterviewState × StartInterviewResponse :=
  let config : InterviewConfig :=
    { experience_years := req.experience_years
      subject := req.subject
      difficulty := req.difficulty
      num_questions := req.num_questions }
  let first_question :=
    g req.experience_years req.subject req.difficulty 1 req.num_questions []
  let initial_record : QuestionAnswerRecord :=
    { question := first_question, answer := none, evaluation := none }
  let interview_state : InterviewState :=
    { interview_id := interview_id
      config := config
      current_question_num := 1
      conversation_history := [initial_record]
      status := .in_progress }
  (interview_state,
   { interview_id := interview_id
     first_question := first_question
     total_questions := req.num_questions
     config := config })

/-- Lines 187-189 of interview_service.py: `current_record.answer = request.answer;
current_record.evaluation = evaluation` — the in-place mutation of
`conversation_history[-1]`, as a functional update of the last element. -/
def recordAnswerInHistory (history : List QuestionAnswerRecord)
    (ans : String) (ev : QuestionEvaluation) : List QuestionAnswerRecord :=
  match history.getLast? with
  | none => history
  | some last =>
      history.dropLast ++ [{ last with answer := some ans, evaluation := some ev }]

/-- Lines 201-205 of interview_service.py:
`[r.evaluation.score for r in history if r.evaluation is not None][-3:]`. -/
def recentScores (history : List QuestionAnswerRecord) : List Nat :=
  let scores := (history.filterMap (·.evaluation)).map (·.score)
  scores.drop (scores.length - 3)

/-- Lines 207-220 of interview_service.py: the next-question provider call —
difficulty is `calculate_adaptive_difficulty(current_difficulty =
interview.config.difficulty, recent_scores)`, computed on the history that
already contains the just-recorded evaluation. -/
def nextQuestionOf (g : GenFn) (s : InterviewState) (req : SubmitAnswerRequest)
    (ev : QuestionEvaluation) : InterviewQuestion :=
  let h₁ := recordAnswerInHistory s.conversation_history req.answer ev
  let adaptive_difficulty :=
    calculate_adaptive_difficulty s.config.difficulty (recentScores h₁)
  g s.config.experience_years s.config.subject adaptive_difficulty
    (s.current_question_num + 1) s.config.num_questions h₁

/-- `InterviewService.submit_answer` on a retrieved session (the storage
`get`/`NotFound` step is composed separately).  Returns the session object's
state after the call together with the result; every `raise` happens before
any mutation, so error paths return the input state. -/
def submit_answer (e : EvalFn) (g : GenFn) (s : InterviewState)
    (req : SubmitAnswerRequest) :
    InterviewState × Except InterviewError SubmitAnswerResponse :=
  if s.status = .completed then
    (s, .error .alreadyCompleted)
  else if req.question_number ≠ s.current_question_num then
    (s, .error .invalidQuestionNumber)
  else
    match s.conversation_history.getLast? with
    | none => (s, .error .indexError)
    | some current_record =>
      let evaluation :=
        e current_record.question req.answer s.config.experience_years s.config.subject
      let h₁ := recordAnswerInHistory s.conversation_history req.answer evaluation
      let is_complete := s.config.num_questions ≤ s.current_question_num
      let questions_remaining := s.config.num_questions - s.current_question_num
      if is_complete then
        let s' := { s with conversation_history := h₁, status := .completed }
        (s', .ok
          { evaluation := evaluation
            next_question := none
            is_complete := true
            questions_remaining := questions_remaining
            current_question_num := s'.current_question_num })
      else
        let next_question := nextQuestionOf g s req evaluation
        let next_record : QuestionAnswerRecord :=
          { question := next_question, answer := none, evaluation := none }
        let s' := { s with
          conversation_history := h₁ ++ [next_record]
          current_question_num := s.current_question_num + 1 }
        (s', .ok
          { evaluation := evaluation
            next_question := some next_question
            is_complete := false
            questions_remaining := questions_remaining - 1
            current_question_num := s'.current_question_num })

/-- The provider's `generate_final_report` response: a JSON dict whose fields
may each be absent (`report_data.get(key, default)` in the code). -/
structure ReportData where
  overall_score : Option ℚ
  detailed_feedback : Option String
  strong_areas : Option (List String)
  weak_areas : Option (List String)
  recommendations : Option (List String)
  hire_recommendation : Option String
deriving DecidableEq, Repr

/-- Lines 279-282 of interview_service.py: records with both answer and
evaluation present. -/
def answeredRecords (s : InterviewState) : List QuestionAnswerRecord :=
  s.conversation_history.filter (fun r => r.answer.isSome && r.evaluation.isSome)

/-- Line 307: `[r.evaluation.score for r in answered_records]`. -/
def answeredScores (s : InterviewState) : List Nat :=
  (answeredRecords s).filterMap (fun r => r.evaluation.map (·.score))

/-- Line 298: `r.answer[:200] + "..." if len(r.answer) > 200 else r.answer`. -/
def answerSummary (a : String) : String :=
  if 200 < a.length then a.take 200 ++ "..." else a

/-- `InterviewService.get_report` on a retrieved session, given the provider's
report response.  Raises the base `InterviewServiceError` (not a distinct
subclass) when the interview is not COMPLETED; mutates nothing, so the state
component is always the input state. -/
def get_report (rd : ReportData) (s : InterviewState) :
    InterviewState × Except InterviewError FinalReportResponse :=
  if s.status ≠ .completed then
    (s, .error .serviceError)
  else
    let answered := answeredRecords s
    let question_breakdown := answered.map (fun r =>
      { question_number := r.question.question_number
        question := r.question.question
        topic := r.question.topic
        difficulty := r.question.difficulty
        answer_summary := answerSummary (r.answer.getD "")
        score := ((r.evaluation.map (·.score)).getD 0)
        feedback := ((r.evaluation.map (·.feedback)).getD "") : QuestionBreakdown })
    let scores := answeredScores s
    let overall_score : ℚ :=
      match rd.overall_score with
      | some v => v
      | none => if scores.isEmpty then 0 else (scores.sum : ℚ) / (scores.length : ℚ)
    (s, .ok
      { interview_id := s.interview_id
        overall_score := overall_score
        total_questions := s.config.num_questions
        questions_answered := answered.length
        experience_years := s.config.experience_years
        subject := s.config.subject
        detailed_feedback := rd.detailed_feedback.getD ""
        strong_areas := rd.strong_areas.getD []
        weak_areas := rd.weak_areas.getD []
        question_wise_breakdown := question_breakdown
        recommendations := rd.recommendations.getD []
        hire_recommendation := rd.hire_recommendation.getD "Unable to determine" })

/-! ## In-memory session store (storage.py)

Python dicts `_storage` and `_timestamps` are modelled as association lists
keyed by the interview id; `datetime.utcnow()` is passed in as `now`. -/

/-- Dict lookup. -/
def alookup {α : Type} (l : List (Nat × α)) (k : Nat) : Option α :=
  match l with
  | [] => none
  | (k', v) :: t => if k' = k then some v else alookup t k

/-- Dict assignment `d[k] = v` (overwrite in place, append if new). -/
def ainsert {α : Type} (l : List (Nat × α)) (k : Nat) (v : α) : List (Nat × α) :=
  match l with
  | [] => [(k, v)]
  | (k', v') :: t => if k' = k then (k, v) :: t else (k', v') :: ainsert t k v

/-- Dict deletion `del d[k]`. -/
def aerase {α : Type} (l : List (Nat × α)) (k : Nat) : List (Nat × α) :=
  match l with
  | [] => []
  | (k', v') :: t => if k' = k then t else (k', v') :: aerase t k

/-- `InterviewStorage` from storage.py: `_storage`, `_timestamps`, and the
session timeout (time units). -/
structure InterviewStorage where
  storage : List (Nat × InterviewState)
  timestamps : List (Nat × Nat)
  session_timeout : Nat
deriving DecidableEq, Repr

/-- `InterviewStorage.create`: stores under `interview.interview_id` with a
fresh timestamp.  The code performs two unconditional dict assignments —
there is no existence check and no failure path. -/
def InterviewStorage.create (st : InterviewStorage) (now : Nat)
    (interview : InterviewState) : InterviewStorage × InterviewState :=
  ({ st with
      storage := ainsert st.storage interview.interview_id interview
      timestamps := ainsert st.timestamps interview.interview_id now },
   interview)

/-- `InterviewStorage.get`: miss → none; expired (now − last-touch strictly
greater than the timeout) → delete both entries and return none; otherwise
refresh the timestamp to `now` and return the session.  Python's
`if timestamp and ...` skips the expiry check when no timestamp is present. -/
def InterviewStorage.get (st : InterviewStorage) (now : Nat) (interview_id : Nat) :
    InterviewStorage × Option InterviewState :=
  match alookup st.storage interview_id with
  | none => (st, none)
  | some interview =>
    match alookup st.timestamps interview_id with
    | some timestamp =>
        if st.session_timeout < now - timestamp then
          ({ st with
              storage := aerase st.storage interview_id
              timestamps := aerase st.timestamps interview_id }, none)
        else
          ({ st with timestamps := ainsert st.timestamps interview_id now },
           some interview)
    | none =>
        ({ st with timestamps := ainsert st.timestamps interview_id now },
         some interview)

/-- `InterviewStorage.update`: unconditional overwrite plus timestamp refresh. -/
def InterviewStorage.update (st : InterviewStorage) (now : Nat)
    (interview : InterviewState) : InterviewStorage × InterviewState :=
  ({ st with
      storage := ainsert st.storage interview.interview_id interview
      timestamps := ainsert st.timestamps interview.interview_id now },
   interview)

/-- `InterviewStorage.delete`: remove if present, report whether removed. -/
def InterviewStorage.delete (st : InterviewStorage) (interview_id : Nat) :
    InterviewStorage × Bool :=
  match alookup st.storage interview_id with
  | some _ =>
      ({ st with
          storage := aerase st.storage interview_id
          timestamps := aerase st.timestamps interview_id }, true)
  | none => (st, false)

/-! ## Reachability and the ledger invariant -/

/-- All records in a list are fully answered and evaluated. -/
def allAnswered (l : List QuestionAnswerRecord) : Prop :=
  ∀ r ∈ l, r.answer.isSome ∧ r.evaluation.isSome

/-- The session-state invariant maintained by the service: the counter starts
at 1 and never exceeds the (positive) target; the ledger length equals the
counter; while IN_PROGRESS the ledger ends in a single unanswered tail with
all earlier records answered+evaluated; once COMPLETED everything is
answered and the counter equals the target. -/
def Inv (s : InterviewState) : Prop :=
  1 ≤ s.current_question_num ∧
  s.conversation_history.length = s.current_question_num ∧
  s.current_question_num ≤ s.config.num_questions ∧
  1 ≤ s.config.num_questions ∧
  (s.status = .in_progress →
    ∃ l₀ t, s.conversation_history = l₀ ++ [t] ∧
      t.answer = none ∧ t.evaluation = none ∧ allAnswered l₀) ∧
  (s.status = .completed →
    allAnswered s.conversation_history ∧
    s.current_question_num = s.config.num_questions)

/-- Session states reachable through the service: created by
`start_interview` from a request passing pydantic validation
(`1 ≤ num_questions ≤ 20`), then evolved by successful `submit_answer`
calls.  The config index records the configuration fixed at creation. -/
inductive Reachable (e : EvalFn) (g : GenFn) : InterviewConfig → InterviewState → Prop where
  | start (req : StartInterviewRequest) (id : Nat)
      (h1 : 1 ≤ req.num_questions) (h2 : req.num_questions ≤ 20) :
      Reachable e g ((start_interview g req id).1).config (start_interview g req id).1
  | step {c : InterviewConfig} {s s' : InterviewState} {req : SubmitAnswerRequest}
      {resp : SubmitAnswerResponse} :
      Reachable e g c s →
      submit_answer e g s req = (s', .ok resp) →
      Reachable e g c s'

theorem recordAnswer_concat (l₀ : List QuestionAnswerRecord) (t : QuestionAnswerRecord)
    (a : String) (ev : QuestionEvaluation) :
    recordAnswerInHistory (l₀ ++ [t]) a ev =
      l₀ ++ [{ t with answer := some a, evaluation := some ev }] := by
  simp [recordAnswerInHistory, List.getLast?_concat, List.dropLast_concat]

/-- Explicit form of a successful non-final submission (more questions
remain): the tail is answered in place, a freshly generated unanswered
record is appended, and the counter is incremented. -/
theorem submit_mid_eq (e : EvalFn) (g : GenFn) (s : InterviewState)
    (req : SubmitAnswerRequest) (l₀ : List QuestionAnswerRecord)
    (t : QuestionAnswerRecord)
    (hs : s.status = .in_progress) (hq : req.question_number = s.current_question_num)
    (hh : s.conversation_history = l₀ ++ [t])
    (hc : s.current_question_num < s.config.num_questions) :
    submit_answer e g s req =
      (let ev := e t.question req.answer s.config.experience_years s.config.subject
       let nq := nextQuestionOf g s req ev
       ({ s with
          conversation_history :=
            (l₀ ++ [{ t with answer := some req.answer, evaluation := some ev }]) ++
              [{ question := nq, answer := none, evaluation := none }]
          current_question_num := s.current_question_num + 1 },
        .ok { evaluation := ev
              next_question := some nq
              is_complete := false
              questions_remaining := s.config.num_questions - s.current_question_num - 1
              current_question_num := s.current_question_num + 1 })) := by
  have hnc : ¬ s.status = .completed := by rw [hs]; intro h; cases h
  have hle : ¬ s.config.num_questions ≤ s.current_question_num := not_le.mpr hc
  simp only [submit_answer, hnc, if_false, hq, ite_not, if_pos rfl, hh,
    List.getLast?_concat, recordAnswer_concat, hle, if_true]

/-- Explicit form of the final successful submission (the counter has reached
the target): the tail is answered in place, the status flips to COMPLETED,
and no record is appended. -/
theorem submit_final_eq (e : EvalFn) (g : GenFn) (s : InterviewState)
    (req : SubmitAnswerRequest) (l₀ : List QuestionAnswerRecord)
    (t : QuestionAnswerRecord)
    (hs : s.status = .in_progress) (hq : req.question_number = s.current_question_num)
    (hh : s.conversation_history = l₀ ++ [t])
    (hc : s.config.num_questions ≤ s.current_question_num) :
    submit_answer e g s req =
      (let ev := e t.question req.answer s.config.experience_years s.config.subject
       ({ s with
          conversation_history :=
            l₀ ++ [{ t with answer := some req.answer, evaluation := some ev }]
          status := .completed },
        .ok { evaluation := ev
              next_question := none
              is_complete := true
              questions_remaining := s.config.num_questions - s.current_question_num
              current_question_num := s.current_question_num })) := by
  have hnc : ¬ s.status = .completed := by rw [hs]; intro h; cases h
  simp only [submit_answer, hnc, if_false, hq, ite_not, if_pos rfl, hh,
    List.getLast?_concat, recordAnswer_concat, hc, if_true]

/-- A successful submission only happens on an IN_PROGRESS session with a
matching question number. -/
theorem submit_ok_conditions {e : EvalFn} {g : GenFn} {s s' : InterviewState}
    {req : SubmitAnswerRequest} {resp : SubmitAnswerResponse}
    (hok : submit_answer e g s req = (s', .ok resp)) :
    s.status = .in_progress ∧ req.question_number = s.current_question_num := by
  by_cases h1 : s.status = .completed
  · simp [submit_answer, h1] at hok
  · by_cases h2 : req.question_number = s.current_question_num
    · refine ⟨?_, h2⟩
      cases hst : s.status
      · rfl
      · exact absurd hst h1
    · simp [submit_answer, h1, h2] at hok

/-- Any outcome of `submit_answer` leaves the config untouched; error
outcomes leave the whole state untouched. -/
theorem submit_config_eq (e : EvalFn) (g : GenFn) (s : InterviewState)
    (req : SubmitAnswerRequest) :
    ((submit_answer e g s req).1).config = s.config := by
  unfold submit_answer
  split
  · rfl
  split
  · rfl
  split
  · rfl
  dsimp only
  split <;> rfl

theorem submit_error_state {e : EvalFn} {g : GenFn} {s s' : InterviewState}
    {req : SubmitAnswerRequest} {err : InterviewError}
    (herr : submit_answer e g s req = (s', .error err)) : s' = s := by
  unfold submit_answer at herr
  split at herr
  · exact (Prod.mk.injEq .. ▸ herr).1.symm
  split at herr
  · exact (Prod.mk.injEq .. ▸ herr).1.symm
  split at herr
  · exact (Prod.mk.injEq .. ▸ herr).1.symm
  dsimp only at herr
  split at herr <;> simp_all

theorem inv_start (g : GenFn) (req : StartInterviewRequest) (id : Nat)
    (h1 : 1 ≤ req.num_questions) : Inv (start_interview g req id).1 := by
  refine ⟨le_refl 1, rfl, h1, h1, ?_, ?_⟩
  · intro _
    exact ⟨[], _, rfl, rfl, rfl, by intro r hr; cases hr⟩
  · intro h
    cases h

theorem submit_ok_config {e : EvalFn} {g : GenFn} {s s' : InterviewState}
    {req : SubmitAnswerRequest} {resp : SubmitAnswerResponse}
    (hok : submit_answer e g s req = (s', .ok resp)) : s'.config = s.config := by
  have hcfg := submit_config_eq e g s req
  rw [hok] at hcfg
  exact hcfg

theorem inv_submit {e : EvalFn} {g : GenFn} {s s' : InterviewState}
    {req : SubmitAnswerRequest} {resp : SubmitAnswerResponse}
    (hInv : Inv s) (hok : submit_answer e g s req = (s', .ok resp)) : Inv s' := by
  obtain ⟨hs, hq⟩ := submit_ok_conditions hok
  obtain ⟨h1, hlen, hle, hnum, hip, _⟩ := hInv
  obtain ⟨l₀, t, hh, hta, hte, hall⟩ := hip hs
  rw [hh] at hlen
  by_cases hc : s.config.num_questions ≤ s.current_question_num
  · rw [submit_final_eq e g s req l₀ t hs hq hh hc] at hok
    have hs' := congrArg Prod.fst hok
    dsimp only at hs'
    subst hs'
    refine ⟨h1, ?_, hle, hnum, ?_, ?_⟩
    · simpa using hlen
    · intro h
      cases h
    · intro _
      refine ⟨?_, le_antisymm hle hc⟩
      intro r hr
      rcases List.mem_append.mp hr with hr0 | hr1
      · exact hall r hr0
      · rcases List.mem_singleton.mp hr1 with rfl
        exact ⟨rfl, rfl⟩
  · rw [submit_mid_eq e g s req l₀ t hs hq hh (not_le.mp hc)] at hok
    have hs' := congrArg Prod.fst hok
    dsimp only at hs'
    subst hs'
    refine ⟨Nat.le_succ_of_le h1, ?_, Nat.succ_le_of_lt (not_le.mp hc), hnum, ?_, ?_⟩
    · simp only [List.length_append, List.length_singleton] at hlen ⊢
      omega
    · intro _
      refine ⟨_, _, rfl, rfl, rfl, ?_⟩
      intro r hr
      rcases List.mem_append.mp hr with hr0 | hr1
      · exact hall r hr0
      · rcases List.mem_singleton.mp hr1 with rfl
        exact ⟨rfl, rfl⟩
    · intro h
      have h' : s.status = .completed := h
      rw [hs] at h'
      cases h'

/-- Every reachable session state satisfies the ledger invariant and carries
the configuration fixed at creation, unmodified. -/
theorem reachable_inv {e : EvalFn} {g : GenFn} {c : InterviewConfig}
    {s : InterviewState} (hr : Reachable e g c s) : Inv s ∧ s.config = c := by
  induction hr with
  | start req id h1 h2 => exact ⟨inv_start g req id h1, rfl⟩
  | step hr hok ih => exact ⟨inv_submit ih.1 hok, (submit_ok_config hok).trans ih.2⟩

/-! ## Difficulty-controller characterization -/

theorem indexOf_easy : difficultyOrder.indexOf Difficulty.easy = 0 := rfl

theorem indexOf_medium : difficultyOrder.indexOf Difficulty.medium = 1 := rfl

theorem indexOf_hard : difficultyOrder.indexOf Difficulty.hard = 2 := rfl

theorem calc_empty (d : Difficulty) : calculate_adaptive_difficulty d [] = d := by
  simp [calculate_adaptive_difficulty]

theorem isEmpty_false_of_ne_nil {scores : List Nat} (h : scores ≠ []) :
    scores.isEmpty = false := by
  cases scores with
  | nil => exact absurd rfl h
  | cons a t => rfl

theorem calc_easy {scores : List Nat} (h : scores ≠ []) :
    calculate_adaptive_difficulty .easy scores =
      if 8 ≤ avg_score scores then .medium else .easy := by
  simp only [calculate_adaptive_difficulty, isEmpty_false_of_ne_nil h,
    Bool.false_eq_true, if_false, indexOf_easy]
  by_cases h8 : 8 ≤ avg_score scores <;> simp [h8, difficultyOrder]

theorem calc_medium {scores : List Nat} (h : scores ≠ []) :
    calculate_adaptive_difficulty .medium scores =
      if 8 ≤ avg_score scores then .hard
      else if avg_score scores ≤ 4 then .easy else .medium := by
  simp only [calculate_adaptive_difficulty, isEmpty_false_of_ne_nil h,
    Bool.false_eq_true, if_false, indexOf_medium]
  by_cases h8 : 8 ≤ avg_score scores <;> by_cases h4 : avg_score scores ≤ 4 <;>
    simp [h8, h4, difficultyOrder]

theorem calc_hard {scores : List Nat} (h : scores ≠ []) :
    calculate_adaptive_difficulty .hard scores =
      if avg_score scores ≤ 4 then .medium else .hard := by
  simp only [calculate_adaptive_difficulty, isEmpty_false_of_ne_nil h,
    Bool.false_eq_true, if_false, indexOf_hard]
  by_cases h8 : 8 ≤ avg_score scores <;> by_cases h4 : avg_score scores ≤ 4 <;>
    simp [h8, h4, difficultyOrder]

theorem calc_one_step (d : Difficulty) (scores : List Nat) :
    difficultySteps (calculate_adaptive_difficulty d scores) d ≤ 1 := by
  by_cases h : scores = []
  · subst h
    rw [calc_empty]
    cases d <;> decide
  · cases d
    · rw [calc_easy h]
      split <;> decide
    · rw [calc_medium h]
      split
      · decide
      split <;> decide
    · rw [calc_hard h]
      split <;> decide

/-- C2: the adaptive-difficulty controller returns the input difficulty on an
empty score window; otherwise it promotes one step when the mean is ≥ 8 and
the level is not already HARD, demotes one step when the mean is ≤ 4 and the
level is not already EASY, and leaves the level unchanged in every other
case (including a mean strictly between 4 and 8); the result is never more
than one level away from the input. -/
theorem C2_difficulty_controller (d : Difficulty) (scores : List Nat)
    (hs : ∀ x ∈ scores, 1 ≤ x ∧ x ≤ 10) :
    (scores = [] → calculate_adaptive_difficulty d scores = d)
    ∧ (scores ≠ [] → 8 ≤ avg_score scores →
        calculate_adaptive_difficulty .easy scores = .medium
        ∧ calculate_adaptive_difficulty .medium scores = .hard
        ∧ calculate_adaptive_difficulty .hard scores = .hard)
    ∧ (scores ≠ [] → avg_score scores ≤ 4 →
        calculate_adaptive_difficulty .hard scores = .medium
        ∧ calculate_adaptive_difficulty .medium scores = .easy
        ∧ calculate_adaptive_difficulty .easy scores = .easy)
    ∧ (scores ≠ [] → 4 < avg_score scores → avg_score scores < 8 →
        calculate_adaptive_difficulty d scores = d)
    ∧ difficultySteps (calculate_adaptive_difficulty d scores) d ≤ 1 := by
  refine ⟨fun hnil => hnil ▸ calc_empty d, ?_, ?_, ?_, calc_one_step d scores⟩
  · intro h h8
    have h4 : ¬ avg_score scores ≤ 4 := by
      intro h4
      linarith
    rw [calc_easy h, calc_medium h, calc_hard h]
    simp [h8, h4]
  · intro h h4
    have h8 : ¬ 8 ≤ avg_score scores := by
      intro h8
      linarith
    rw [calc_easy h, calc_medium h, calc_hard h]
    simp [h8, h4]
  · intro h h4 h8
    have h8' : ¬ 8 ≤ avg_score scores := not_le.mpr h8
    have h4' : ¬ avg_score scores ≤ 4 := not_le.mpr h4
    cases d
    · rw [calc_easy h]
      simp [h8']
    · rw [calc_medium h]
      simp [h8', h4']
    · rw [calc_hard h]
      simp [h4']

/-- Witness for C2 at the spec's own example: three scores of 9 at EASY give
MEDIUM (one step, not HARD). -/
theorem C2_difficulty_controller_witness :
    (∀ x ∈ ([9, 9, 9] : List Nat), 1 ≤ x ∧ x ≤ 10)
    ∧ calculate_adaptive_difficulty .easy [9, 9, 9] = .medium :=
  ⟨by decide,
   ((C2_difficulty_controller .easy [9, 9, 9] (by decide)).2.1
      (by decide)
      (by norm_num [avg_score])).1⟩

/-! ## Concrete fixtures used by witnesses and counterexamples -/

def sampleEvaluation : QuestionEvaluation :=
  { score := 9
    correctness := "correct"
    depth := "deep"
    clarity := "clear"
    practical_understanding := "solid"
    strengths := []
    areas_for_improvement := []
    feedback := "well done" }

def sampleEvalFn : EvalFn := fun _ _ _ _ => sampleEvaluation

def sampleGenFn : GenFn := fun _ _ d n _ _ =>
  { question_number := n, question := "Explain.", difficulty := d, topic := "core" }

def sampleStartRequest : StartInterviewRequest :=
  { experience_years := 3, subject := "Python", difficulty := .easy, num_questions := 2 }

def sampleState : InterviewState := (start_interview sampleGenFn sampleStartRequest 0).1

def sampleOneQRequest : StartInterviewRequest :=
  { experience_years := 5, subject := "Networking", difficulty := .medium, num_questions := 1 }

def sampleOneQState : InterviewState := (start_interview sampleGenFn sampleOneQRequest 1).1

/-! ## Claim theorems: the state machine -/

theorem submit_invalid_helper {e : EvalFn} {g : GenFn} {s : InterviewState}
    {req : SubmitAnswerRequest} (hs : s.status = .in_progress)
    (hq : req.question_number ≠ s.current_question_num) :
    submit_answer e g s req = (s, .error .invalidQuestionNumber) := by
  have hnc : ¬ s.status = .completed := by
    rw [hs]
    intro h
    cases h
  simp [submit_answer, hnc, hq]

/-- C1: for every reachable session, while the status is IN_PROGRESS the
conversation-history length equals `current_question_num`, exactly the last
(tail) record has `answer = none`, and every earlier record has both answer
and evaluation set. -/
theorem C1_ledger_invariant (e : EvalFn) (g : GenFn) (c : InterviewConfig)
    (s : InterviewState) (hr : Reachable e g c s) (hs : s.status = .in_progress) :
    s.conversation_history.length = s.current_question_num
    ∧ ∃ l₀ t, s.conversation_history = l₀ ++ [t] ∧ t.answer = none
        ∧ allAnswered l₀ := by
  obtain ⟨⟨_, hlen, _, _, hip, _⟩, _⟩ := reachable_inv hr
  obtain ⟨l₀, t, hh, hta, _, hall⟩ := hip hs
  exact ⟨hlen, l₀, t, hh, hta, hall⟩

/-- Witness for C1 at a freshly started two-question session. -/
theorem C1_ledger_invariant_witness :
    Reachable sampleEvalFn sampleGenFn sampleState.config sampleState
    ∧ sampleState.status = .in_progress
    ∧ (sampleState.conversation_history.length = sampleState.current_question_num
        ∧ ∃ l₀ t, sampleState.conversation_history = l₀ ++ [t] ∧ t.answer = none
            ∧ allAnswered l₀) :=
  have hre : Reachable sampleEvalFn sampleGenFn sampleState.config sampleState :=
    Reachable.start sampleStartRequest 0 (by decide) (by decide)
  ⟨hre, rfl, C1_ledger_invariant sampleEvalFn sampleGenFn _ sampleState hre rfl⟩

/-- C3: submitting against an IN_PROGRESS session with a question number
different from `current_question_num` fails with `InvalidQuestionNumber` and
leaves the session state exactly as before. -/
theorem C3_invalid_question_number (e : EvalFn) (g : GenFn) (s : InterviewState)
    (req : SubmitAnswerRequest) (hs : s.status = .in_progress)
    (hq : req.question_number ≠ s.current_question_num) :
    submit_answer e g s req = (s, .error .invalidQuestionNumber) :=
  submit_invalid_helper hs hq

/-- Witness for C3: answering question 2 of a session whose current question
is 1. -/
theorem C3_invalid_question_number_witness :
    sampleState.status = .in_progress
    ∧ (2 : Nat) ≠ sampleState.current_question_num
    ∧ submit_answer sampleEvalFn sampleGenFn sampleState
        { interview_id := 0, answer := "hello", question_number := 2 } =
      (sampleState, .error .invalidQuestionNumber) :=
  ⟨rfl, by decide,
   C3_invalid_question_number sampleEvalFn sampleGenFn sampleState
     { interview_id := 0, answer := "hello", question_number := 2 } rfl (by decide)⟩

/-- C4: the submission answering the `num_questions`-th question completes
the session: status becomes COMPLETED, no next question is generated,
`questions_remaining` is 0, and the ledger never grows beyond
`num_questions` records on any reachable session. -/
theorem C4_completion (e : EvalFn) (g : GenFn) (c : InterviewConfig)
    (s : InterviewState) (req : SubmitAnswerRequest) (hr : Reachable e g c s)
    (hs : s.status = .in_progress)
    (hq : req.question_number = s.current_question_num)
    (hlast : s.current_question_num = s.config.num_questions) :
    (∃ s' resp, submit_answer e g s req = (s', .ok resp)
      ∧ s'.status = .completed
      ∧ resp.next_question = none
      ∧ resp.is_complete = true
      ∧ resp.questions_remaining = 0
      ∧ s'.conversation_history.length = s.config.num_questions)
    ∧ (∀ c₂ s₂, Reachable e g c₂ s₂ →
        s₂.conversation_history.length ≤ s₂.config.num_questions) := by
  constructor
  · obtain ⟨⟨_, hlen, hle, _, hip, _⟩, _⟩ := reachable_inv hr
    obtain ⟨l₀, t, hh, _, _, _⟩ := hip hs
    have hc : s.config.num_questions ≤ s.current_question_num := hlast.ge
    refine ⟨_, _, submit_final_eq e g s req l₀ t hs hq hh hc, rfl, rfl, rfl, ?_, ?_⟩
    · show s.config.num_questions - s.current_question_num = 0
      rw [hlast]
      exact Nat.sub_self _
    · show (l₀ ++ [_]).length = s.config.num_questions
      rw [hh] at hlen
      simp only [List.length_append, List.length_singleton] at hlen ⊢
      omega
  · intro c₂ s₂ hr₂
    obtain ⟨⟨_, hlen₂, hle₂, _, _, _⟩, _⟩ := reachable_inv hr₂
    rw [hlen₂]
    exact hle₂

/-- Witness for C4 at a one-question session answering its only question. -/
theorem C4_completion_witness :
    Reachable sampleEvalFn sampleGenFn sampleOneQState.config sampleOneQState
    ∧ sampleOneQState.status = .in_progress
    ∧ (1 : Nat) = sampleOneQState.current_question_num
    ∧ sampleOneQState.current_question_num = sampleOneQState.config.num_questions
    ∧ ((∃ s' resp, submit_answer sampleEvalFn sampleGenFn sampleOneQState
          { interview_id := 1, answer := "TCP", question_number := 1 } = (s', .ok resp)
        ∧ s'.status = .completed
        ∧ resp.next_question = none
        ∧ resp.is_complete = true
        ∧ resp.questions_remaining = 0
        ∧ s'.conversation_history.length = sampleOneQState.config.num_questions)
      ∧ (∀ c₂ s₂, Reachable sampleEvalFn sampleGenFn c₂ s₂ →
          s₂.conversation_history.length ≤ s₂.config.num_questions)) :=
  have hre : Reachable sampleEvalFn sampleGenFn sampleOneQState.config sampleOneQState :=
    Reachable.start sampleOneQRequest 1 (by decide) (by decide)
  ⟨hre, rfl, rfl, rfl,
   C4_completion sampleEvalFn sampleGenFn _ sampleOneQState
     { interview_id := 1, answer := "TCP", question_number := 1 } hre rfl rfl rfl⟩

/-- C5: submitting twice with the same (correct) question number: the first
call succeeds, the second fails with `AlreadyCompleted` or
`InvalidQuestionNumber` (the stale-index guard), and the second call leaves
the post-first-call state untouched. -/
theorem C5_double_submit (e : EvalFn) (g : GenFn) (c : InterviewConfig)
    (s : InterviewState) (req : SubmitAnswerRequest) (hr : Reachable e g c s)
    (hs : s.status = .in_progress)
    (hq : req.question_number = s.current_question_num) :
    ∃ s₁ resp₁ err, submit_answer e g s req = (s₁, .ok resp₁)
      ∧ submit_answer e g s₁ req = (s₁, .error err)
      ∧ (err = .alreadyCompleted ∨ err = .invalidQuestionNumber) := by
  obtain ⟨⟨_, _, _, _, hip, _⟩, _⟩ := reachable_inv hr
  obtain ⟨l₀, t, hh, _, _, _⟩ := hip hs
  by_cases hc : s.config.num_questions ≤ s.current_question_num
  · refine ⟨_, _, .alreadyCompleted,
      submit_final_eq e g s req l₀ t hs hq hh hc, ?_, Or.inl rfl⟩
    simp [submit_answer]
  · refine ⟨_, _, .invalidQuestionNumber,
      submit_mid_eq e g s req l₀ t hs hq hh (not_le.mp hc), ?_, Or.inr rfl⟩
    refine submit_invalid_helper hs ?_
    show req.question_number ≠ s.current_question_num + 1
    omega

/-- Witness for C5 at a one-question session: the duplicate submission hits
the completed session. -/
theorem C5_double_submit_witness :
    Reachable sampleEvalFn sampleGenFn sampleOneQState.config sampleOneQState
    ∧ sampleOneQState.status = .in_progress
    ∧ (1 : Nat) = sampleOneQState.current_question_num
    ∧ ∃ s₁ resp₁ err, submit_answer sampleEvalFn sampleGenFn sampleOneQState
        { interview_id := 1, answer := "TCP", question_number := 1 } = (s₁, .ok resp₁)
      ∧ submit_answer sampleEvalFn sampleGenFn s₁
          { interview_id := 1, answer := "TCP", question_number := 1 } = (s₁, .error err)
      ∧ (err = .alreadyCompleted ∨ err = .invalidQuestionNumber) :=
  have hre : Reachable sampleEvalFn sampleGenFn sampleOneQState.config sampleOneQState :=
    Reachable.start sampleOneQRequest 1 (by decide) (by decide)
  ⟨hre, rfl, rfl,
   C5_double_submit sampleEvalFn sampleGenFn _ sampleOneQState
     { interview_id := 1, answer := "TCP", question_number := 1 } hre rfl rfl⟩

/-- C10: the difficulty passed to the question generator is the controller
applied to the session's initial configured difficulty: reachable states
carry the creation-time config unmodified, `submit_answer` never changes the
config, every generated next question comes from `nextQuestionOf` (whose
difficulty argument is `calculate_adaptive_difficulty s.config.difficulty`,
not the previous question's difficulty), and the controller's output is
within one promotion/demotion step of its input — so adaptive adjustments
never compound across questions. -/
theorem C10_adaptive_from_initial_config :
    (∀ (e : EvalFn) (g : GenFn) (c : InterviewConfig) (s : InterviewState),
        Reachable e g c s → s.config = c)
    ∧ (∀ (e : EvalFn) (g : GenFn) (s : InterviewState) (req : SubmitAnswerRequest),
        ((submit_answer e g s req).1).config = s.config)
    ∧ (∀ (e : EvalFn) (g : GenFn) (s s' : InterviewState) (req : SubmitAnswerRequest)
        (resp : SubmitAnswerResponse) (q : InterviewQuestion),
        submit_answer e g s req = (s', .ok resp) → resp.next_question = some q →
        ∃ last, s.conversation_history.getLast? = some last
          ∧ q = nextQuestionOf g s req
              (e last.question req.answer s.config.experience_years s.config.subject))
    ∧ (∀ (d : Difficulty) (scores : List Nat),
        difficultySteps (calculate_adaptive_difficulty d scores) d ≤ 1) := by
  refine ⟨fun e g c s hr => (reachable_inv hr).2, submit_config_eq, ?_, calc_one_step⟩
  intro e g s s' req resp q hok hnq
  unfold submit_answer at hok
  split at hok
  · simp at hok
  split at hok
  · simp at hok
  split at hok
  · simp at hok
  · rename_i last hlast
    dsimp only at hok
    split at hok
    · have h2 := congrArg Prod.snd hok
      dsimp only at h2
      have h3 := Except.ok.inj h2
      rw [← h3] at hnq
      simp at hnq
    · have h2 := congrArg Prod.snd hok
      dsimp only at h2
      have h3 := Except.ok.inj h2
      rw [← h3] at hnq
      exact ⟨last, hlast, (Option.some.inj hnq).symm⟩

/-- Witness for C10: config constancy at a started session, and the
one-step bound at a concrete window. -/
theorem C10_adaptive_from_initial_config_witness :
    sampleState.config = sampleState.config
    ∧ difficultySteps (calculate_adaptive_difficulty .easy [9, 9, 9]) .easy ≤ 1 :=
  ⟨C10_adaptive_from_initial_config.1 sampleEvalFn sampleGenFn sampleState.config
     sampleState (Reachable.start sampleStartRequest 0 (by decide) (by decide)),
   C10_adaptive_from_initial_config.2.2.2 .easy [9, 9, 9]⟩

/-! ## Claim theorems: report generation -/

def sampleReportData : ReportData :=
  { overall_score := none
    detailed_feedback := none
    strong_areas := none
    weak_areas := none
    recommendations := none
    hire_recommendation := none }

/-- C6 counterexample: on a stored session whose status is not COMPLETED,
`get_report` raises the generic base `InterviewServiceError` — there is no
distinct NotCompleted error type in the code, so the failure is not one of
the distinctly-typed recoverable errors. -/
theorem C6_no_distinct_not_completed_error :
    (get_report sampleReportData sampleState).2 = .error .serviceError
    ∧ InterviewError.serviceError.isDistinctTyped = false :=
  ⟨rfl, rfl⟩

/-- C6 amended: on every session whose status is not COMPLETED, `get_report`
fails by raising the generic base `InterviewServiceError` (distinct from
`NotFound` and `AlreadyCompleted` only in that it is none of them — the code
defines no dedicated NotCompleted exception class; the HTTP router maps it
to a recoverable 400), and it leaves the session state unchanged. -/
theorem C6_report_requires_completion (rd : ReportData) (s : InterviewState)
    (hs : s.status ≠ .completed) :
    get_report rd s = (s, .error .serviceError) := by
  unfold get_report
  rw [if_pos hs]

/-- Witness for the amended C6 at a freshly started (IN_PROGRESS) session. -/
theorem C6_report_requires_completion_witness :
    sampleState.status ≠ .completed
    ∧ get_report sampleReportData sampleState = (sampleState, .error .serviceError) :=
  ⟨by decide, C6_report_requires_completion sampleReportData sampleState (by decide)⟩

/-- C7: on a COMPLETED session, if the provider's report omits
`overall_score` then the report's overall score is the arithmetic mean of
the evaluation scores of the answered turns; if the provider supplies it,
that value is used unchanged. -/
theorem C7_overall_score_fallback (rd : ReportData) (s : InterviewState)
    (hs : s.status = .completed) :
    ∃ resp, (get_report rd s).2 = .ok resp
      ∧ (rd.overall_score = none → answeredScores s ≠ [] →
          resp.overall_score =
            ((answeredScores s).sum : ℚ) / ((answeredScores s).length : ℚ))
      ∧ (∀ v, rd.overall_score = some v → resp.overall_score = v) := by
  have hnc : ¬ s.status ≠ .completed := by simp [hs]
  unfold get_report
  rw [if_neg hnc]
  refine ⟨_, rfl, ?_, ?_⟩
  · intro hnone hne
    show (match rd.overall_score with
      | some v => v
      | none => if (answeredScores s).isEmpty then 0
          else ((answeredScores s).sum : ℚ) / ((answeredScores s).length : ℚ)) = _
    rw [hnone, isEmpty_false_of_ne_nil hne]
    rfl
  · intro v hv
    show (match rd.overall_score with
      | some v => v
      | none => if (answeredScores s).isEmpty then 0
          else ((answeredScores s).sum : ℚ) / ((answeredScores s).length : ℚ)) = v
    rw [hv]

def answeredRecord (n sc : Nat) : QuestionAnswerRecord :=
  { question := { question_number := n, question := "Q", difficulty := .medium, topic := "t" }
    answer := some "A"
    evaluation := some { sampleEvaluation with score := sc } }

def sampleCompletedState : InterviewState :=
  { interview_id := 7
    config := { experience_years := 4, subject := "Go", difficulty := .medium, num_questions := 3 }
    current_question_num := 3
    conversation_history := [answeredRecord 1 6, answeredRecord 2 8, answeredRecord 3 10]
    status := .completed }

/-- Witness for C7 at the spec's example: a completed session with turn
scores [6, 8, 10]. -/
theorem C7_overall_score_fallback_witness :
    sampleCompletedState.status = .completed
    ∧ answeredScores sampleCompletedState = [6, 8, 10]
    ∧ ∃ resp, (get_report sampleReportData sampleCompletedState).2 = .ok resp
      ∧ (sampleReportData.overall_score = none →
          answeredScores sampleCompletedState ≠ [] →
          resp.overall_score = ((answeredScores sampleCompletedState).sum : ℚ) /
            ((answeredScores sampleCompletedState).length : ℚ))
      ∧ (∀ v, sampleReportData.overall_score = some v → resp.overall_score = v) :=
  ⟨rfl, by decide,
   C7_overall_score_fallback sampleReportData sampleCompletedState rfl⟩

/-! ## Claim theorems: the session store -/

theorem alookup_ainsert_self {α : Type} (l : List (Nat × α)) (k : Nat) (v : α) :
    alookup (ainsert l k v) k = some v := by
  induction l with
  | nil => simp [ainsert, alookup]
  | cons hd tl ih =>
      obtain ⟨k', v'⟩ := hd
      by_cases hk : k' = k <;> simp [ainsert, alookup, hk, ih]

/-- Reduction of `get` on a present, expired entry. -/
theorem store_get_expired (st : InterviewStorage) (now interview_id : Nat)
    (iv : InterviewState) (ts : Nat)
    (hso : alookup st.storage interview_id = some iv)
    (hts : alookup st.timestamps interview_id = some ts)
    (h : st.session_timeout < now - ts) :
    st.get now interview_id =
      ({ st with
          storage := aerase st.storage interview_id
          timestamps := aerase st.timestamps interview_id }, none) := by
  simp only [InterviewStorage.get, hso, hts]
  rw [if_pos h]

/-- Reduction of `get` on a present, live entry: the session is returned and
the last-touch timestamp is refreshed to `now`. -/
theorem store_get_live (st : InterviewStorage) (now interview_id : Nat)
    (iv : InterviewState) (ts : Nat)
    (hso : alookup st.storage interview_id = some iv)
    (hts : alookup st.timestamps interview_id = some ts)
    (h : now - ts ≤ st.session_timeout) :
    st.get now interview_id =
      ({ st with timestamps := ainsert st.timestamps interview_id now }, some iv) := by
  simp only [InterviewStorage.get, hso, hts]
  rw [if_neg (not_lt.mpr h)]

/-- C8: a `get` performed when now − last-touch exceeds the timeout returns
not-found and removes the entry; a `get` within the timeout returns the
session and resets its last-touch to now; consequently, after a touch at
t = 0, a `get` at t = timeout − 1 succeeds and a subsequent `get` at
t = 2·timeout − 2 still succeeds. -/
theorem C8_store_expiry_and_refresh (st : InterviewStorage)
    (now interview_id : Nat) (iv : InterviewState) (ts : Nat)
    (hso : alookup st.storage interview_id = some iv)
    (hts : alookup st.timestamps interview_id = some ts) :
    (st.session_timeout < now - ts →
      st.get now interview_id =
        ({ st with
            storage := aerase st.storage interview_id
            timestamps := aerase st.timestamps interview_id }, none))
    ∧ (now - ts ≤ st.session_timeout →
      st.get now interview_id =
        ({ st with timestamps := ainsert st.timestamps interview_id now }, some iv))
    ∧ (ts = 0 → 1 ≤ st.session_timeout →
        ∃ st₁, st.get (st.session_timeout - 1) interview_id = (st₁, some iv)
          ∧ (st₁.get (2 * st.session_timeout - 2) interview_id).2 = some iv) := by
  refine ⟨store_get_expired st now interview_id iv ts hso hts,
    store_get_live st now interview_id iv ts hso hts, ?_⟩
  intro hts0 h1
  subst hts0
  refine ⟨{ st with timestamps := ainsert st.timestamps interview_id (st.session_timeout - 1) },
    store_get_live st _ interview_id iv 0 hso hts (by omega), ?_⟩
  rw [store_get_live
    { st with timestamps := ainsert st.timestamps interview_id (st.session_timeout - 1) }
    (2 * st.session_timeout - 2) interview_id iv
    (st.session_timeout - 1) hso
    (alookup_ainsert_self st.timestamps interview_id (st.session_timeout - 1))
    (show 2 * st.session_timeout - 2 - (st.session_timeout - 1) ≤ st.session_timeout by omega)]

def sampleStore : InterviewStorage :=
  { storage := [(0, sampleState)]
    timestamps := [(0, 0)]
    session_timeout := 60 }

/-- Witness for C8 at a concrete one-entry store with timeout 60: a get at
t = 59 succeeds and a follow-up get at t = 118 still succeeds. -/
theorem C8_store_expiry_and_refresh_witness :
    alookup sampleStore.storage 0 = some sampleState
    ∧ alookup sampleStore.timestamps 0 = some 0
    ∧ ∃ st₁, sampleStore.get (sampleStore.session_timeout - 1) 0 = (st₁, some sampleState)
        ∧ (st₁.get (2 * sampleStore.session_timeout - 2) 0).2 = some sampleState :=
  ⟨rfl, rfl,
   (C8_store_expiry_and_refresh sampleStore 0 0 sampleState 0 rfl rfl).2.2 rfl
     (by decide)⟩

def collidingState : InterviewState :=
  { sampleState with current_question_num := 42 }

/-- C9 counterexample: `create` called with a session whose ID already maps
to a different stored session does not fail with AlreadyExists — `create`
has no failure path at all — and it silently overwrites the existing entry. -/
theorem C9_create_silently_overwrites :
    alookup sampleStore.storage collidingState.interview_id = some sampleState
    ∧ collidingState ≠ sampleState
    ∧ (sampleStore.create 5 collidingState).2 = collidingState
    ∧ alookup ((sampleStore.create 5 collidingState).1).storage
        collidingState.interview_id = some collidingState := by
  refine ⟨rfl, ?_, rfl, rfl⟩
  decide

/-- C9 amended: `create(session)` stores the session under `session.id` with
a fresh last-touch timestamp unconditionally, overwriting any existing entry
for that ID; it never fails (ID uniqueness in the service relies on `uuid4`
generation, not on a store-level AlreadyExists check). -/
theorem C9_create_unconditional (st : InterviewStorage) (now : Nat)
    (iv : InterviewState) :
    (st.create now iv).2 = iv
    ∧ alookup ((st.create now iv).1).storage iv.interview_id = some iv
    ∧ alookup ((st.create now iv).1).timestamps iv.interview_id = some now :=
  ⟨rfl, alookup_ainsert_self st.storage iv.interview_id iv,
   alookup_ainsert_self st.timestamps iv.interview_id now⟩

end InterviewAI
